import Mathlib

/-!
Shallow embedding of the audio-saver PWA page component
(`src/pages/Index.tsx`): the `Recording` entity, the component state, the
IndexedDB object store (modelled as a list of records keyed by `id`), and
the event handlers `startRecording`, `stopRecording` (with its `onstop`
callback), `deleteRecording`, `uploadRecording`, `playRecording` and the
pure helper `formatDuration`.

Asynchronous platform outcomes (microphone permission, IndexedDB opens and
requests, the fetch response) are passed in as explicit oracle parameters;
each handler is otherwise a deterministic state transformer, mirroring the
source line by line.  Binary blobs are byte lists; `Date.now()` values are
naturals (milliseconds).
-/

namespace AudioSaver

/-- A binary blob, as the list of its bytes. -/
abbrev Blob := List Nat

/-- The `Recording` interface of `Index.tsx`:
`{ id; blob; duration; timestamp; transcription? }`. -/
structure Recording where
  id : String
  blob : Blob
  duration : Nat
  timestamp : Nat
  transcription : Option String := none
deriving DecidableEq

/-- Toast variants used by the component (`variant: "destructive"` or none). -/
inductive ToastVariant where
  | standard
  | destructive
deriving DecidableEq

/-- A user-facing toast notification, as passed to `toast({...})`. -/
structure Toast where
  title : String
  description : String
  variant : ToastVariant
deriving DecidableEq

def toastStorageError : Toast :=
  ⟨"Error", "Could not initialize storage", .destructive⟩

def toastMicError : Toast :=
  ⟨"Error", "Could not access microphone", .destructive⟩

def toastDeleted : Toast :=
  ⟨"Success", "Recording deleted", .standard⟩

def toastUploadOk : Toast :=
  ⟨"Success", "Recording uploaded and transcribed successfully", .standard⟩

def toastUploadFail : Toast :=
  ⟨"Error", "Failed to upload recording", .destructive⟩

/-- MediaRecorder state: the code only distinguishes `"inactive"` from the
rest (`state !== "inactive"`), and never pauses, so two states suffice. -/
inductive MediaState where
  | recording
  | inactive
deriving DecidableEq

/-- The fixed webhook URL constant of `Index.tsx`. -/
def N8N_WEBHOOK_URL : String :=
  "https://digiventus.app.n8n.cloud/webhook/17a25868-119f-44a8-b5c6-ba3faad36bd5"

/-- One multipart form field, as appended by `formData.append(name, blob, filename)`. -/
structure FormField where
  name : String
  content : Blob
  filename : String
deriving DecidableEq

/-- An outgoing HTTP request, as issued by `fetch(url, { method, body })`. -/
structure HttpRequest where
  url : String
  method : String
  form : List FormField
deriving DecidableEq

/-- Component state: the `useState` hooks, the `useRef` cells, the contents
of the `recordings` IndexedDB object store, the toasts raised so far, and
the HTTP requests sent so far. -/
structure AppState where
  isRecording : Bool := false
  recordings : List Recording := []
  recordingDuration : Nat := 0
  isUploading : Option String := none
  currentlyPlaying : Option String := none
  selectedRecording : Option Recording := none
  recorder : Option MediaState := none
  chunks : List Blob := []
  startTime : Nat := 0
  store : List Recording := []
  toasts : List Toast := []
  sent : List HttpRequest := []
deriving DecidableEq

/-- The initial component state (all hooks at their initial values, store empty). -/
def initState : AppState := {}

/-- Outcome of one IndexedDB interaction: the open succeeds and the store
request succeeds (`ok`), the open fires `onerror` (`openFail`), or the open
succeeds but the store request itself errors and the transaction aborts
(`opFail`). -/
inductive StorageOutcome where
  | ok
  | openFail
  | opFail
deriving DecidableEq

/-- Outcome of the `fetch` in `uploadRecording`: the fetch rejects
(`netError`), the response is not ok (`httpError`), the response is ok but
`response.json()` rejects (`okNotJson`), or the body parses as JSON whose
`text` field is `text` (`none` when the field is absent). -/
inductive UploadOutcome where
  | netError
  | httpError
  | okNotJson
  | okJson (text : Option String)
deriving DecidableEq

/-- Does the store hold a record with key `i`?  (The object store is
created with `keyPath: "id"`.) -/
def hasId (store : List Recording) (i : String) : Bool :=
  store.any (fun q => decide (q.id = i))

/-- The record stored under key `i`, if any. -/
def lookupId (store : List Recording) (i : String) : Option Recording :=
  store.find? (fun q => decide (q.id = i))

/-- `store.put(x)`: replaces the record whose key equals `x.id`, or inserts
`x` when no record has that key. -/
def idbPut (x : Recording) (store : List Recording) : List Recording :=
  if hasId store x.id then
    store.map (fun q => if q.id = x.id then x else q)
  else
    store ++ [x]

/-- `loadRecordings`: opens the database and on success replaces the
in-memory `recordings` state with the result of `getAll()`.  Neither the
open nor the `getAll` request has an error handler, so any failure leaves
the state untouched and raises no toast. -/
def loadRecordings (s : StorageOutcome) (st : AppState) : AppState :=
  match s with
  | .ok => { st with recordings := st.store }
  | .openFail => st
  | .opFail => st

/-- The IndexedDB-initialization effect (`useEffect`): on open error a
destructive toast, otherwise `loadRecordings` with its own outcome `l`. -/
def initDB (s : StorageOutcome) (l : StorageOutcome) (st : AppState) : AppState :=
  match s with
  | .openFail => { st with toasts := st.toasts ++ [toastStorageError] }
  | _ => loadRecordings l st

/-- `startRecording`: on granted permission installs a fresh recorder in
the `"recording"` state, records the start time, flips `isRecording` and
resets the duration counter; on rejection the catch block raises the
microphone toast and nothing else changes. -/
def startRecording (granted : Bool) (now : Nat) (st : AppState) : AppState :=
  if granted then
    { st with
      recorder := some .recording
      startTime := now
      isRecording := true
      recordingDuration := 0 }
  else
    { st with toasts := st.toasts ++ [toastMicError] }

/-- The `ondataavailable` handler: pushes the chunk when `e.data.size > 0`. -/
def onDataAvailable (c : Blob) (st : AppState) : AppState :=
  if c.length > 0 then { st with chunks := st.chunks ++ [c] } else st

/-- The guard of `stopRecording`:
`mediaRecorder.current && mediaRecorder.current.state !== "inactive"`. -/
def captureActive (st : AppState) : Bool :=
  match st.recorder with
  | none => false
  | some s => decide (s ≠ .inactive)

/-- The record built in the `onstop` callback at stop time `now`:
`id = Date.now().toString()`, blob = concatenation of the accumulated
chunks, `duration = Math.floor((Date.now() - startTime) / 1000)`,
`timestamp = Date.now()`, no transcription. -/
def mkStoppedRecording (st : AppState) (now : Nat) : Recording :=
  { id := Nat.repr now
    blob := st.chunks.flatten
    duration := (now - st.startTime) / 1000
    timestamp := now
    transcription := none }

/-- `stopRecording` together with the `onstop` callback it triggers.  When
the guard fails this is a no-op.  Otherwise the recorder stops (state
`"inactive"`), the built record is `add`ed to the store (an `add` with a
duplicate key errors and aborts the transaction; no error handler exists),
`loadRecordings` refreshes the list, the chunks are cleared and the
duration and recording flag reset.  On `openFail` the `onsuccess` callback
holding the `add` and the refresh never runs. -/
def stopRecording (now : Nat) (s : StorageOutcome) (st : AppState) : AppState :=
  if captureActive st then
    let r := mkStoppedRecording st now
    let st1 :=
      match s with
      | .openFail => st
      | .opFail => { st with recordings := st.store }
      | .ok =>
        if hasId st.store r.id then
          { st with recordings := st.store }
        else
          let store := st.store ++ [r]
          { st with store := store, recordings := store }
    { st1 with
      recorder := some .inactive
      chunks := []
      recordingDuration := 0
      isRecording := false }
  else st

/-- `deleteRecording`: on open success deletes the record with the given
key, refreshes the list and raises the success toast — all inside
`onsuccess`, so on `openFail` nothing at all happens.  The `delete`
request has no error handler either: on `opFail` the transaction aborts
(store unchanged) while the refresh and the success toast still run. -/
def deleteRecording (i : String) (s : StorageOutcome) (st : AppState) : AppState :=
  match s with
  | .openFail => st
  | .opFail =>
    { st with recordings := st.store, toasts := st.toasts ++ [toastDeleted] }
  | .ok =>
    let store := st.store.filter (fun q => decide (q.id ≠ i))
    { st with
      store := store
      recordings := store
      toasts := st.toasts ++ [toastDeleted] }

/-- The request built and sent by `uploadRecording`: a POST of the blob to
the fixed webhook URL as a multipart field named `file` with filename
`recording-<id>.webm`. -/
def uploadRequest (r : Recording) : HttpRequest :=
  { url := N8N_WEBHOOK_URL
    method := "POST"
    form := [⟨"file", r.blob, "recording-" ++ r.id ++ ".webm"⟩] }

/-- `uploadRecording`: sets the uploading marker, sends the request, and
on an ok JSON response builds `{ ...recording, transcription: data.text }`,
`put`s it (the inner open and `put` have no error handlers; the success
toast runs regardless of the storage outcome) and refreshes the list; any
thrown error (fetch rejection, non-ok response, JSON parse failure) lands
in the catch block's failure toast; `finally` clears the marker. -/
def uploadRecording (r : Recording) (out : UploadOutcome) (s : StorageOutcome)
    (st : AppState) : AppState :=
  let st0 := { st with
    isUploading := some r.id
    sent := st.sent ++ [uploadRequest r] }
  match out with
  | .netError =>
    { st0 with toasts := st0.toasts ++ [toastUploadFail], isUploading := none }
  | .httpError =>
    { st0 with toasts := st0.toasts ++ [toastUploadFail], isUploading := none }
  | .okNotJson =>
    { st0 with toasts := st0.toasts ++ [toastUploadFail], isUploading := none }
  | .okJson t =>
    let upd : Recording := { r with transcription := t }
    let st1 :=
      match s with
      | .openFail => st0
      | .opFail => { st0 with recordings := st0.store }
      | .ok =>
        let store := idbPut upd st0.store
        { st0 with store := store, recordings := store }
    { st1 with toasts := st1.toasts ++ [toastUploadOk], isUploading := none }

/-- `playRecording`: clicking the playing recording pauses it and clears
the marker; clicking any other recording points the single audio element
at it and marks it as the one playing. -/
def playRecording (r : Recording) (st : AppState) : AppState :=
  if st.currentlyPlaying = some r.id then
    { st with currentlyPlaying := none }
  else
    { st with currentlyPlaying := some r.id }

/-- The `onended` handler of the audio element. -/
def playbackEnded (st : AppState) : AppState :=
  { st with currentlyPlaying := none }

/-- `showTranscription`. -/
def showTranscription (r : Recording) (st : AppState) : AppState :=
  { st with selectedRecording := some r }

/-- Closing the transcription dialog (`onOpenChange` / the close button). -/
def closeDialog (st : AppState) : AppState :=
  { st with selectedRecording := none }

/-- `padStart(2, "0")` on a string. -/
def padStartTwo (s : String) : String :=
  if s.length ≥ 2 then s else String.mk (List.replicate (2 - s.length) '0') ++ s

/-- `formatDuration`: minutes, a colon, and the seconds remainder padded
to two characters. -/
def formatDuration (seconds : Nat) : String :=
  let minutes := seconds / 60
  let remainingSeconds := seconds % 60
  Nat.repr minutes ++ ":" ++ padStartTwo (Nat.repr remainingSeconds)

/-- `formatDate` is `new Date(timestamp).toLocaleString()`; locale
rendering is opaque, kept abstract as the timestamp's decimal rendering is
not claimed. -/
def formatDate (timestamp : Nat) : String :=
  Nat.repr timestamp

/-- One UI-driven event, with its platform outcomes. -/
inductive Action where
  | init (s : StorageOutcome) (l : StorageOutcome)
  | start (granted : Bool) (now : Nat)
  | dataChunk (c : Blob)
  | stop (now : Nat) (s : StorageOutcome)
  | deleteRec (i : String) (s : StorageOutcome)
  | upload (r : Recording) (out : UploadOutcome) (s : StorageOutcome)
  | play (r : Recording)
  | ended
  | showText (r : Recording)
  | closeText

/-- The event-handler dispatch: one step of the component. -/
def step (a : Action) (st : AppState) : AppState :=
  match a with
  | .init s l => initDB s l st
  | .start granted now => startRecording granted now st
  | .dataChunk c => onDataAvailable c st
  | .stop now s => stopRecording now s st
  | .deleteRec i s => deleteRecording i s st
  | .upload r out s => uploadRecording r out s st
  | .play r => playRecording r st
  | .ended => playbackEnded st
  | .showText r => showTranscription r st
  | .closeText => closeDialog st

/-- States reachable from the initial state by UI events. -/
inductive Reachable : AppState → Prop where
  | init : Reachable initState
  | step (a : Action) {st : AppState} : Reachable st → Reachable (step a st)

/-- The identifiers currently marked as playing (the `currentlyPlaying`
hook holds at most one). -/
def playingIds (st : AppState) : List String :=
  st.currentlyPlaying.toList

/-- The number of active capture sessions: the single recorder ref, when
present and not inactive. -/
def activeCaptureCount (st : AppState) : Nat :=
  match st.recorder with
  | some .recording => 1
  | _ => 0

/-- The numeric value denoted by a string of decimal digits. -/
def decimalValue (s : String) : Nat :=
  s.data.foldl (fun n c => 10 * n + (c.toNat - 48)) 0

/-! ## Helper lemmas -/

theorem padTwo_bounded : ∀ n : Nat, n < 60 →
    (padStartTwo (Nat.repr n)).length = 2 ∧
    (padStartTwo (Nat.repr n)).data.all Char.isDigit = true ∧
    decimalValue (padStartTwo (Nat.repr n)) = n := by
  decide

/-! ## Theorems for the claims -/

/-- C9: for every `s : Nat`, `formatDuration s` is the decimal rendering
of `s / 60`, a colon, and the decimal rendering of `s % 60` left-padded
with zeros to exactly two characters; the part after the colon is always
two digit characters and denotes the value `s % 60 < 60`. -/
theorem formatDuration_spec (s : Nat) :
    formatDuration s
      = Nat.repr (s / 60) ++ ":" ++ padStartTwo (Nat.repr (s % 60))
    ∧ (padStartTwo (Nat.repr (s % 60))).length = 2
    ∧ (padStartTwo (Nat.repr (s % 60))).data.all Char.isDigit = true
    ∧ decimalValue (padStartTwo (Nat.repr (s % 60))) = s % 60
    ∧ s % 60 < 60 := by
  have hlt : s % 60 < 60 := Nat.mod_lt s (by norm_num)
  have h := padTwo_bounded (s % 60) hlt
  exact ⟨rfl, h.1, h.2.1, h.2.2, hlt⟩

/-- C10: when the media recorder is absent or already inactive,
`stopRecording` leaves the entire state unchanged: no store write, no
change to the recording flag, the list, the chunks, or anything else. -/
theorem stopRecording_noop (now : Nat) (s : StorageOutcome) (st : AppState) :
    stopRecording now s { st with recorder := none }
      = { st with recorder := none }
    ∧ stopRecording now s { st with recorder := some MediaState.inactive }
      = { st with recorder := some MediaState.inactive } := by
  constructor <;> simp [stopRecording, captureActive]

/-- C8: after `uploadRecording` the uploading marker is `none` in every
outcome, and on a network error or a non-ok response neither the store
nor the in-memory list changes. -/
theorem upload_marker_and_failure_frame (r : Recording) (out : UploadOutcome)
    (s : StorageOutcome) (st : AppState) :
    (uploadRecording r out s st).isUploading = none
    ∧ (uploadRecording r .netError s st).store = st.store
    ∧ (uploadRecording r .netError s st).recordings = st.recordings
    ∧ (uploadRecording r .httpError s st).store = st.store
    ∧ (uploadRecording r .httpError s st).recordings = st.recordings := by
  refine ⟨?_, rfl, rfl, rfl, rfl⟩
  cases out <;> cases s <;> rfl

/-- C6: `deleteRecording` with a successful storage interaction removes
exactly the records whose key is the given identifier, keeps every other
record, refreshes the in-memory list from the store, and the new store
contents are the old ones minus that record. -/
theorem deleteRecording_spec (i : String) (st : AppState) :
    (deleteRecording i .ok st).store
      = st.store.filter (fun q => decide (q.id ≠ i))
    ∧ (∀ q : Recording,
        q ∈ (deleteRecording i .ok st).store ↔ (q ∈ st.store ∧ q.id ≠ i))
    ∧ (deleteRecording i .ok st).recordings = (deleteRecording i .ok st).store
    ∧ (deleteRecording i .ok st).toasts = st.toasts ++ [toastDeleted] := by
  refine ⟨rfl, ?_, rfl, rfl⟩
  intro q
  simp [deleteRecording, List.mem_filter]

/-- C3 counterexample: a storage open failure during `deleteRecording`
is a failure of a storage operation, yet it changes nothing and raises no
notification at all — the claim that every storage failure is surfaced
fails at this concrete input. -/
theorem delete_openFail_silent :
    deleteRecording "1" .openFail initState = initState
    ∧ (deleteRecording "1" .openFail initState).toasts = [] := by
  exact ⟨rfl, rfl⟩

/-- C3 amended: microphone permission failure, the initial database open
failure and both upload failures are caught and surfaced as toasts, and a
failed upload still sends exactly one request (nothing is retried); but
storage failures of the later operations are silent: an open failure
during delete, save-on-stop or load changes nothing and shows nothing,
and a failed delete request even shows the success toast while leaving
the store unchanged. -/
theorem error_handling_spec (st : AppState) (now : Nat) (r : Recording)
    (i : String) (l : StorageOutcome) :
    startRecording false now st
      = { st with toasts := st.toasts ++ [toastMicError] }
    ∧ initDB .openFail l st
      = { st with toasts := st.toasts ++ [toastStorageError] }
    ∧ uploadRecording r .netError .ok st
      = { st with
          sent := st.sent ++ [uploadRequest r]
          toasts := st.toasts ++ [toastUploadFail]
          isUploading := none }
    ∧ uploadRecording r .httpError .ok st
      = { st with
          sent := st.sent ++ [uploadRequest r]
          toasts := st.toasts ++ [toastUploadFail]
          isUploading := none }
    ∧ deleteRecording i .openFail st = st
    ∧ (deleteRecording i .opFail st).store = st.store
    ∧ (deleteRecording i .opFail st).toasts = st.toasts ++ [toastDeleted]
    ∧ (stopRecording now .openFail st).toasts = st.toasts
    ∧ (stopRecording now .openFail st).store = st.store
    ∧ loadRecordings .openFail st = st := by
  refine ⟨rfl, rfl, rfl, rfl, rfl, rfl, rfl, ?_, ?_, rfl⟩ <;>
    cases hc : captureActive st <;> simp [stopRecording, hc]

/-- C5 counterexample: an ok response whose JSON body has no `text` field
is still treated as success — the success toast is raised and the record
is written with an absent transcription — refuting "successful exactly
when ... containing a text field" at this concrete input. -/
theorem upload_ok_without_text :
    (uploadRecording ⟨"1", [2], 1, 1, none⟩ (.okJson none) .ok initState).toasts
      = [toastUploadOk]
    ∧ (uploadRecording ⟨"1", [2], 1, 1, none⟩ (.okJson none) .ok initState).store
      = [⟨"1", [2], 1, 1, none⟩] := by
  exact ⟨rfl, by decide⟩

/-- C5 amended: every upload sends exactly one POST to the fixed webhook
URL with the blob as a single multipart field named `file`, and the
response is treated as successful exactly when it is ok and its body
parses as JSON — a `text` field is not required for success. -/
theorem upload_request_and_success_spec (r : Recording) (out : UploadOutcome)
    (s : StorageOutcome) (st : AppState) :
    (uploadRecording r out s st).sent = st.sent ++ [uploadRequest r]
    ∧ (uploadRequest r).method = "POST"
    ∧ (uploadRequest r).url = N8N_WEBHOOK_URL
    ∧ (uploadRequest r).form
      = [{ name := "file", content := r.blob,
           filename := "recording-" ++ r.id ++ ".webm" }]
    ∧ ((uploadRecording r out s st).toasts = st.toasts ++ [toastUploadOk]
        ↔ ∃ t, out = UploadOutcome.okJson t) := by
  refine ⟨by cases out <;> cases s <;> rfl, rfl, rfl, rfl, ?_⟩
  cases out <;> cases s <;>
    simp [uploadRecording, toastUploadOk, toastUploadFail]

theorem hasId_of_lookupId {store : List Recording} {i : String} {r : Recording}
    (h : lookupId store i = some r) : hasId store i = true := by
  have hmem := List.mem_of_find?_eq_some h
  have hp := List.find?_some h
  simp only [decide_eq_true_eq] at hp
  simp only [hasId, List.any_eq_true, decide_eq_true_eq]
  exact ⟨r, hmem, hp⟩

theorem lookupId_map_self (x : Recording) :
    ∀ store : List Recording, hasId store x.id = true →
    lookupId (store.map (fun q => if q.id = x.id then x else q)) x.id = some x := by
  intro store
  induction store with
  | nil => simp [hasId]
  | cons q qs ih =>
    intro h
    by_cases hq : q.id = x.id
    · simp [lookupId, List.find?, hq]
    · have hqs : hasId qs x.id = true := by
        simpa [hasId, hq] using h
      simpa [lookupId, List.find?, hq] using ih hqs

theorem lookupId_map_other (x : Recording) (i : String) (hne : i ≠ x.id) :
    ∀ store : List Recording,
    lookupId (store.map (fun q => if q.id = x.id then x else q)) i
      = lookupId store i := by
  intro store
  induction store with
  | nil => rfl
  | cons q qs ih =>
    by_cases hq : q.id = x.id
    · have hx : ¬ x.id = i := fun hxi => hne hxi.symm
      have hqi : ¬ q.id = i := by rw [hq]; exact hx
      simpa [lookupId, List.find?, hq, hx, hqi] using ih
    · by_cases hqi : q.id = i
      · have hx : ¬ i = x.id := hne
        simp [lookupId, List.find?, hq, hqi, hx]
      · simpa [lookupId, List.find?, hq, hqi] using ih

theorem lookupId_append_absent (x : Recording) (i : String) (hne : i ≠ x.id) :
    ∀ store : List Recording,
    lookupId (store ++ [x]) i = lookupId store i := by
  intro store
  induction store with
  | nil =>
    have hx : ¬ x.id = i := fun hxi => hne hxi.symm
    simp [lookupId, List.find?, hx]
  | cons q qs ih =>
    by_cases hqi : q.id = i
    · simp [lookupId, List.find?, hqi]
    · simpa [lookupId, List.find?, hqi] using ih

theorem lookupId_idbPut_self (x : Recording) (store : List Recording)
    (h : hasId store x.id = true) :
    lookupId (idbPut x store) x.id = some x := by
  unfold idbPut
  rw [if_pos h]
  exact lookupId_map_self x store h

theorem lookupId_idbPut_other (x : Recording) (i : String) (hne : i ≠ x.id)
    (store : List Recording) :
    lookupId (idbPut x store) i = lookupId store i := by
  unfold idbPut
  by_cases h : hasId store x.id = true
  · rw [if_pos h]
    exact lookupId_map_other x i hne store
  · rw [if_neg h]
    exact lookupId_append_absent x i hne store

/-- C2: when the upload of a stored recording gets an ok response whose
JSON body carries a `text` field, only the record under that recording's
key changes: it becomes the recording with its transcription set to that
text (identifier, payload, duration and timestamp untouched), every other
key maps to what it did before, and the in-memory list is refreshed from
the store. -/
theorem uploadRecording_success_updates (st : AppState) (r : Recording)
    (t : String) (hmem : lookupId st.store r.id = some r) :
    lookupId (uploadRecording r (.okJson (some t)) .ok st).store r.id
      = some { r with transcription := some t }
    ∧ (∀ i, i ≠ r.id →
        lookupId (uploadRecording r (.okJson (some t)) .ok st).store i
          = lookupId st.store i)
    ∧ ({ r with transcription := some t } : Recording).id = r.id
    ∧ ({ r with transcription := some t } : Recording).blob = r.blob
    ∧ ({ r with transcription := some t } : Recording).duration = r.duration
    ∧ ({ r with transcription := some t } : Recording).timestamp = r.timestamp
    ∧ (uploadRecording r (.okJson (some t)) .ok st).recordings
      = (uploadRecording r (.okJson (some t)) .ok st).store := by
  have hid := hasId_of_lookupId hmem
  refine ⟨?_, ?_, rfl, rfl, rfl, rfl, rfl⟩
  · exact lookupId_idbPut_self { r with transcription := some t } st.store hid
  · intro i hi
    exact lookupId_idbPut_other { r with transcription := some t } i hi st.store

theorem uploadRecording_success_updates_witness :
    lookupId initState.store "1" = none
    ∧ lookupId
        (uploadRecording ⟨"1", [2], 3, 4, none⟩ (.okJson (some "hello")) .ok
          { initState with store := [⟨"1", [2], 3, 4, none⟩] }).store "1"
      = some ⟨"1", [2], 3, 4, some "hello"⟩ := by
  exact ⟨rfl,
    (uploadRecording_success_updates
      { initState with store := [⟨"1", [2], 3, 4, none⟩] }
      ⟨"1", [2], 3, 4, none⟩ "hello" (by decide)).1⟩

/-- C4 counterexample: a recording created by stopping a capture can be
uploaded twice (the upload button is re-enabled once the marker clears),
and each successful upload overwrites the stored record again — the
record for key `"5000"` is mutated twice after its creation, refuting
"mutated at most once". -/
theorem upload_twice_overwrites :
    lookupId (step (.stop 5000 .ok)
        (step (.dataChunk [7]) (step (.start true 0) initState))).store "5000"
      = some ⟨"5000", [7], 5, 5000, none⟩
    ∧ lookupId (step (.upload ⟨"5000", [7], 5, 5000, none⟩ (.okJson (some "a")) .ok)
        (step (.stop 5000 .ok)
          (step (.dataChunk [7]) (step (.start true 0) initState)))).store "5000"
      = some ⟨"5000", [7], 5, 5000, some "a"⟩
    ∧ lookupId (step (.upload ⟨"5000", [7], 5, 5000, some "a"⟩ (.okJson (some "b")) .ok)
        (step (.upload ⟨"5000", [7], 5, 5000, none⟩ (.okJson (some "a")) .ok)
          (step (.stop 5000 .ok)
            (step (.dataChunk [7]) (step (.start true 0) initState))))).store "5000"
      = some ⟨"5000", [7], 5, 5000, some "b"⟩
    ∧ (⟨"5000", [7], 5, 5000, some "a"⟩ : Recording) ≠ ⟨"5000", [7], 5, 5000, none⟩
    ∧ (⟨"5000", [7], 5, 5000, some "b"⟩ : Recording)
        ≠ ⟨"5000", [7], 5, 5000, some "a"⟩ := by
  decide

/-- C4 amended: every mutation of a stored record is a successful upload
setting only its transcription field — the other fields are preserved and
every other key is untouched — but repeated uploads of the same recording
mutate its stored record repeatedly, once per successful upload. -/
theorem upload_mutates_only_transcription (st : AppState) (r : Recording)
    (t t2 : Option String) (hmem : lookupId st.store r.id = some r) :
    lookupId (uploadRecording r (.okJson t) .ok st).store r.id
      = some { r with transcription := t }
    ∧ (∀ i, i ≠ r.id →
        lookupId (uploadRecording r (.okJson t) .ok st).store i
          = lookupId st.store i)
    ∧ lookupId
        (uploadRecording { r with transcription := t } (.okJson t2) .ok
          (uploadRecording r (.okJson t) .ok st)).store r.id
      = some { r with transcription := t2 } := by
  have hid := hasId_of_lookupId hmem
  have h1 : lookupId (uploadRecording r (.okJson t) .ok st).store r.id
      = some { r with transcription := t } :=
    lookupId_idbPut_self { r with transcription := t } st.store hid
  have hid2 : hasId (uploadRecording r (.okJson t) .ok st).store r.id = true :=
    hasId_of_lookupId h1
  refine ⟨h1, ?_, ?_⟩
  · intro i hi
    exact lookupId_idbPut_other { r with transcription := t } i hi st.store
  · exact lookupId_idbPut_self { r with transcription := t2 }
      (uploadRecording r (.okJson t) .ok st).store hid2

theorem upload_mutates_only_transcription_witness :
    lookupId
      (uploadRecording ⟨"1", [2], 3, 4, some "x"⟩ (.okJson (some "y")) .ok
        (uploadRecording ⟨"1", [2], 3, 4, none⟩ (.okJson (some "x")) .ok
          { initState with store := [⟨"1", [2], 3, 4, none⟩] })).store "1"
      = some ⟨"1", [2], 3, 4, some "y"⟩ := by
  exact (upload_mutates_only_transcription
    { initState with store := [⟨"1", [2], 3, 4, none⟩] }
    ⟨"1", [2], 3, 4, none⟩ (some "x") (some "y") (by decide)).2.2

theorem foldl_onDataAvailable (cs : List Blob) (st : AppState) :
    cs.foldl (fun s c => onDataAvailable c s) st
      = { st with
          chunks := st.chunks ++ cs.filter (fun c => decide (0 < c.length)) } := by
  induction cs generalizing st with
  | nil => simp
  | cons c cs ih =>
    simp only [List.foldl_cons, List.filter_cons]
    by_cases hc : 0 < c.length
    · rw [onDataAvailable, if_pos hc, ih]
      simp [hc]
    · rw [onDataAvailable, if_neg hc, ih]
      simp [hc]

/-- One capture session: permission granted at time `t0`, then the chunks
`cs` delivered by `ondataavailable`. -/
def sessionState (st : AppState) (t0 : Nat) (cs : List Blob) : AppState :=
  cs.foldl (fun s c => onDataAvailable c s) (startRecording true t0 st)

theorem sessionState_eq (st : AppState) (t0 : Nat) (cs : List Blob)
    (hchunks : st.chunks = []) :
    sessionState st t0 cs
      = { st with
          recorder := some .recording
          startTime := t0
          isRecording := true
          recordingDuration := 0
          chunks := cs.filter (fun c => decide (0 < c.length)) } := by
  unfold sessionState
  rw [foldl_onDataAvailable]
  simp [startRecording, hchunks]

/-- C1: stopping a capture session that started at `t0` with empty chunk
buffer and received the chunks `cs` creates, at stop time `now`, a record
whose identifier is the decimal rendering of `now`, whose duration is the
whole seconds elapsed since `t0`, whose timestamp is `now`, and whose
payload is the concatenation of the (non-empty) chunks of the session;
this record is appended to the store and the in-memory list refreshed
from it, while the chunk buffer, duration counter and recording flag
reset. -/
theorem stopRecording_creates_record (st : AppState) (t0 now : Nat)
    (cs : List Blob)
    (hchunks : st.chunks = [])
    (_ht : t0 ≤ now)
    (hfresh : hasId st.store (Nat.repr now) = false) :
    mkStoppedRecording (sessionState st t0 cs) now
      = { id := Nat.repr now
          blob := (cs.filter (fun c => decide (0 < c.length))).flatten
          duration := (now - t0) / 1000
          timestamp := now
          transcription := none }
    ∧ (stopRecording now .ok (sessionState st t0 cs)).store
      = st.store ++ [mkStoppedRecording (sessionState st t0 cs) now]
    ∧ (stopRecording now .ok (sessionState st t0 cs)).recordings
      = (stopRecording now .ok (sessionState st t0 cs)).store
    ∧ (stopRecording now .ok (sessionState st t0 cs)).chunks = []
    ∧ (stopRecording now .ok (sessionState st t0 cs)).recordingDuration = 0
    ∧ (stopRecording now .ok (sessionState st t0 cs)).isRecording = false := by
  have h1 := sessionState_eq st t0 cs hchunks
  rw [h1]
  refine ⟨rfl, ?_, ?_, ?_, ?_, ?_⟩ <;>
    simp [stopRecording, captureActive, mkStoppedRecording, hfresh]

theorem stopRecording_creates_record_witness :
    initState.chunks = []
    ∧ (1000 : Nat) ≤ 3500
    ∧ hasId initState.store (Nat.repr 3500) = false
    ∧ (stopRecording 3500 .ok (sessionState initState 1000 [[1, 2], [], [3]])).store
      = initState.store
        ++ [mkStoppedRecording (sessionState initState 1000 [[1, 2], [], [3]]) 3500] := by
  exact ⟨rfl, by norm_num, rfl,
    (stopRecording_creates_record initState 1000 3500 [[1, 2], [], [3]]
      rfl (by norm_num) rfl).2.1⟩

/-- C7: at most one recording is marked as playing and at most one
capture session is active in any reachable state, and starting playback
of a different recording while one is playing replaces it: afterwards
exactly the new recording is marked playing. -/
theorem single_active_session (st : AppState) (_h : Reachable st)
    (r : Recording) (j : String)
    (hp : st.currentlyPlaying = some j) (hne : j ≠ r.id) :
    (playingIds st).length ≤ 1
    ∧ activeCaptureCount st ≤ 1
    ∧ playingIds (playRecording r st) = [r.id]
    ∧ (playRecording r st).currentlyPlaying = some r.id := by
  have hrep : (playRecording r st).currentlyPlaying = some r.id := by
    have hcond : ¬ st.currentlyPlaying = some r.id := by
      rw [hp]
      simp [hne]
    simp [playRecording, hcond]
  refine ⟨?_, ?_, ?_, hrep⟩
  · simp [playingIds, hp]
  · unfold activeCaptureCount
    split <;> norm_num
  · simp [playingIds, hrep]

theorem single_active_session_witness :
    (step (Action.play ⟨"1", [], 0, 0, none⟩) initState).currentlyPlaying
      = some "1"
    ∧ playingIds
        (playRecording ⟨"2", [], 0, 0, none⟩
          (step (Action.play ⟨"1", [], 0, 0, none⟩) initState))
      = ["2"] := by
  exact ⟨rfl,
    (single_active_session (step (Action.play ⟨"1", [], 0, 0, none⟩) initState)
      (Reachable.step _ Reachable.init)
      ⟨"2", [], 0, 0, none⟩ "1" rfl (by decide)).2.2.1⟩

end AudioSaver
